import Mathlib

/-!
Verification of the furniture-pipeline repository (`app.py`,
`furniture_finder.py`, `server.py`) against its natural-language
specification.

The Python source is shallowly embedded: dictionaries and dataclasses become
structures, floats become rationals (reals for the mesh geometry, where a
square root occurs inside `trimesh`'s area-weighted centroid), and the
fallible external collaborators (Selenium page scraping, the Gemini
suggestion service, the TRELLIS generative model) are modelled by their
result values, which enter the embedded functions as parameters.

Definitions whose name starts with `spec` render a sentence of the
specification, for comparison against the embedded code; everything else is
translated from the source files.
-/

/- ========== furniture_finder.py ========== -/

/-- furniture_finder.py lines 55-65, dataclass `ScrapedProduct`.
Scraped floats are modelled as rationals; absent dimensions are `none`. -/
structure ScrapedProduct where
  name : String
  image_url : String
  price : String
  link : String
  source : String := "IKEA"
  scraped_height : Option ℚ := none
  scraped_width : Option ℚ := none
  scraped_depth : Option ℚ := none
  fit_reasons : List String := []
deriving DecidableEq

/-- furniture_finder.py lines 46-53, dataclass `DimensionRange`.
The UI fills it with integers; the fields are embedded as rationals since
they are only ever compared against scraped floats. -/
structure DimensionRange where
  height_min : ℚ
  height_max : ℚ
  width_min : ℚ
  width_max : ℚ
  depth_min : ℚ
  depth_max : ℚ
deriving DecidableEq

/-- Python's `(x or -1)` on an optional float (furniture_finder.py lines
187-189): `None` and the falsy value `0.0` both give `-1`. -/
def orNeg1 : Option ℚ → ℚ
  | none => -1
  | some v => if v = 0 then -1 else v

/-- furniture_finder.py line 187: `constraints.height_min <= (p.scraped_height or -1) <= constraints.height_max`. -/
def h_fit (c : DimensionRange) (p : ScrapedProduct) : Bool :=
  decide (c.height_min ≤ orNeg1 p.scraped_height) && decide (orNeg1 p.scraped_height ≤ c.height_max)

/-- furniture_finder.py line 188. -/
def w_fit (c : DimensionRange) (p : ScrapedProduct) : Bool :=
  decide (c.width_min ≤ orNeg1 p.scraped_width) && decide (orNeg1 p.scraped_width ≤ c.width_max)

/-- furniture_finder.py line 189. -/
def d_fit (c : DimensionRange) (p : ScrapedProduct) : Bool :=
  decide (c.depth_min ≤ orNeg1 p.scraped_depth) && decide (orNeg1 p.scraped_depth ≤ c.depth_max)

/-- furniture_finder.py line 191: `if h_fit and w_fit and d_fit`. -/
def fitsConstraints (c : DimensionRange) (p : ScrapedProduct) : Bool :=
  h_fit c p && w_fit c p && d_fit c p

/-- furniture_finder.py lines 184-197, `filter_products`: the loop appends
each product, tagged with a fit reason, to `perfect` when all three range
checks pass and to `possible` otherwise, preserving input order. -/
def filter_products : List ScrapedProduct → DimensionRange → List ScrapedProduct × List ScrapedProduct
  | [], _ => ([], [])
  | p :: rest, c =>
    let tail := filter_products rest c
    if fitsConstraints c p then
      ({ p with fit_reasons := ["✓ Verified Dimensions"] } :: tail.1, tail.2)
    else
      (tail.1, { p with fit_reasons := ["? Check website for dimensions"] } :: tail.2)

/-- Python's `sorted` applied to the three members of a matched triplet
(furniture_finder.py line 103), rendered for exactly three elements:
returns the values in ascending order. -/
def sort3 (a b c : ℚ) : ℚ × ℚ × ℚ :=
  if a ≤ b then
    if b ≤ c then (a, b, c)
    else if a ≤ c then (a, c, b)
    else (c, a, b)
  else
    if a ≤ c then (b, a, c)
    else if b ≤ c then (b, c, a)
    else (c, b, a)

/-- Result dictionary of `extract_dimensions_from_text`
(furniture_finder.py line 97): `{"height": None, "width": None, "depth": None}`. -/
structure ParsedDims where
  height : Option ℚ := none
  width : Option ℚ := none
  depth : Option ℚ := none
deriving DecidableEq

/-- furniture_finder.py lines 96-105, `extract_dimensions_from_text`.
The `re.findall` triplet search over the page text is modelled by its result
list `found` (each element one numeric triplet, in page order); empty text
and no-match both give `found = []` and the all-`none` dictionary.
Lines 103-104: the first triplet is sorted ascending and assigned as
`depth, height, width`. -/
def extract_dimensions_from_text (found : List (ℚ × ℚ × ℚ)) : ParsedDims :=
  match found with
  | [] => {}
  | (a, b, c) :: _ =>
    let vals := sort3 a b c
    { depth := some vals.1, height := some vals.2.1, width := some vals.2.2 }

/-- furniture_finder.py lines 143-181, `fetch_product_details` (worker):
builds a `ScrapedProduct` from the page title, url, scraped image, price
text and the dimension triplets found in the page source.  The Selenium
fetch itself is external; its scraped artefacts enter as parameters. -/
def fetch_product_details_ff (title url image price : String)
    (found : List (ℚ × ℚ × ℚ)) : ScrapedProduct :=
  let dims := extract_dimensions_from_text found
  { name := title, image_url := image, price := price, link := url,
    scraped_height := dims.height, scraped_width := dims.width,
    scraped_depth := dims.depth }

/-- Rendering of the SPEC's distance score (spec §4.2, §8): squared
Euclidean norm of the per-axis (width, depth, height) differences to the
target.  Squaring does not change the argmin, so this suffices to compare
the spec's selection rule with the code. -/
def specDistSq (target cand : ℚ × ℚ × ℚ) : ℚ :=
  (cand.1 - target.1) ^ 2 + (cand.2.1 - target.2.1) ^ 2 + (cand.2.2 - target.2.2) ^ 2

/- ========== app.py : dimension extraction ========== -/

/-- A USD stage's declared up-axis token (`UsdGeom.GetStageUpAxis`); USD
allows `Y` or `Z`. -/
inductive UpAxis
  | y
  | z
deriving DecidableEq

/-- The data of a successfully opened scanned-space container that
`get_room_dimensions_from_buffer` (app.py lines 105-119) reads: the
declared up-axis, `metersPerUnit`, and the world bound's range size
`(size[0], size[1], size[2])`. -/
structure UsdStage where
  upAxis : UpAxis
  metersPerUnit : ℚ
  bboxSize : ℚ × ℚ × ℚ
deriving DecidableEq

/-- The dictionary returned by `get_room_dimensions_from_buffer`
(app.py line 115): exactly the three keys `w`, `h`, `d` in centimeters.
The code returns no floor coordinate. -/
structure RoomDims where
  w : ℚ
  h : ℚ
  d : ℚ
deriving DecidableEq

/-- app.py lines 105-119, `get_room_dimensions_from_buffer`: `none` when the
stage cannot be opened (`if not stage: return None`); otherwise
`{"w": size[0]*m_per_u*100, "h": size[1]*m_per_u*100, "d": size[2]*m_per_u*100}`.
The declared up-axis is never consulted. -/
def get_room_dimensions_from_buffer : Option UsdStage → Option RoomDims
  | none => none
  | some st =>
    some { w := st.bboxSize.1 * st.metersPerUnit * 100,
           h := st.bboxSize.2.1 * st.metersPerUnit * 100,
           d := st.bboxSize.2.2 * st.metersPerUnit * 100 }

/-- Rendering of the SPEC's rule (spec §4.1, §3): the vertical extent is the
bbox component selected by the container's declared up-axis, which may be
the second or the third coordinate. -/
def specVerticalExtentCm (st : UsdStage) : ℚ :=
  match st.upAxis with
  | UpAxis.y => st.bboxSize.2.1 * st.metersPerUnit * 100
  | UpAxis.z => st.bboxSize.2.2 * st.metersPerUnit * 100

/- ========== app.py : product fetch, scale, layout, manifest ========== -/

/-- The dictionary returned by app.py's `fetch_product_details`
(lines 198-201). -/
structure AppProduct where
  name : String
  image_url : String
  link : String
  price : ℚ
  width_cm : ℚ
  height_cm : ℚ
  depth_cm : ℚ
deriving DecidableEq

/-- app.py lines 180-203, `fetch_product_details`: the page scrape
(image url, parsed price with default 99.0) is external and enters as
parameters; the returned dimensions are the hardcoded constants
`"width_cm": 80, "height_cm": 80, "depth_cm": 80` (line 200) regardless of
the page content. -/
def fetch_product_details_app (title url image_url : String) (price : ℚ) : AppProduct :=
  { name := title, image_url := image_url, link := url, price := price,
    width_cm := 80, height_cm := 80, depth_cm := 80 }

/-- app.py line 302, per axis: `max(bmax[i]-bmin[i], 0.01)` applied to the
post-processed mesh's bounds, producing `bounds_m`. -/
def clampBounds (bmin bmax : ℚ × ℚ × ℚ) : ℚ × ℚ × ℚ :=
  (max (bmax.1 - bmin.1) (1 / 100),
   max (bmax.2.1 - bmin.2.1) (1 / 100),
   max (bmax.2.2 - bmin.2.2) (1 / 100))

/-- app.py lines 408-410, one axis of the scale computation:
`(target_cm/100.0)/b if b > 0 else 1.0`. -/
def scaleAxis (target_cm b : ℚ) : ℚ :=
  if 0 < b then (target_cm / 100) / b else 1

/-- app.py lines 399-404, the floor-layout positions for a batch of `n`
built items (`rw_m`, `rd_m` are the room width/depth in meters):
`positions` starts as `[(0,0,0)]` and is replaced for
`len(built) == 2` and `len(built) == 3`. -/
def layoutPositions (rw_m rd_m : ℚ) (n : Nat) : List (ℚ × ℚ × ℚ) :=
  let x_span := max (rw_m - 4 / 5) 1
  let z_span := max (rd_m - 4 / 5) 1
  if n = 2 then [(-(x_span / 4), 0, z_span / 4), (x_span / 4, 0, z_span / 4)]
  else if n = 3 then
    [(0, 0, z_span / 4), (-(x_span / 3), 0, -(z_span / 4)), (x_span / 3, 0, -(z_span / 4))]
  else [(0, 0, 0)]

/-- One element of the `furniture_payloads` list (app.py lines 412-420).
The random `furniture_id`, the stored-model url and the price string are
elided; position, scale and provenance are kept. -/
structure FurniturePayload where
  position : ℚ × ℚ × ℚ
  scale : ℚ × ℚ × ℚ
  page_link : String
  image_link : String
deriving DecidableEq

/-- app.py lines 399-420, the per-item payload: position is
`positions[idx] if idx < len(positions) else (0,0,0)` and each scale axis is
`scaleAxis` of the product's dimension over the corresponding mesh bound. -/
def mkPayload (dims : RoomDims) (n idx : Nat) (p : AppProduct) (b : ℚ × ℚ × ℚ) : FurniturePayload :=
  { position := (layoutPositions (dims.w / 100) (dims.d / 100) n).getD idx (0, 0, 0),
    scale := (scaleAxis p.width_cm b.1, scaleAxis p.height_cm b.2.1, scaleAxis p.depth_cm b.2.2),
    page_link := p.link,
    image_link := p.image_url }

/-- app.py lines 395-420, the `for idx, ... in enumerate(built)` assembly
loop; `n` is `len(built)`, fixed before the loop. -/
def assemble (dims : RoomDims) (n : Nat) : Nat → List (AppProduct × (ℚ × ℚ × ℚ)) → List FurniturePayload
  | _, [] => []
  | idx, (p, b) :: rest => mkPayload dims n idx p b :: assemble dims n (idx + 1) rest

/-- One suggestion dictionary from the Gemini response
(app.py lines 127-129, 374). -/
structure Suggestion where
  furniture_query : Option String := none
  target_width_cm : Option ℚ := none
  target_depth_cm : Option ℚ := none
  target_height_cm : Option ℚ := none
deriving DecidableEq

/-- Outcome of the fallible external stages of one iteration of the
per-suggestion loop (app.py lines 373-390).  Each failure constructor is
one of the loop's `continue` / caught-exception paths; `ok` carries the
fetched product and the pipeline's returned `bounds_m` (the stored usdz
bytes and mimetype are elided: they only feed the asset store, which is
modelled separately). -/
inductive SubResult
  | noLinks
  | noProductOrImage
  | imageDownloadError
  | pipelineError
  | ok (product : AppProduct) (bounds_m : ℚ × ℚ × ℚ)
deriving DecidableEq

/-- app.py lines 372-390: the `built` list collected by the loop over
`suggestions[:3]`, one outcome per iteration. -/
def builtOf (suggestions : List Suggestion) (subs : List SubResult) :
    List (AppProduct × (ℚ × ℚ × ℚ)) :=
  ((suggestions.take 3).zip subs).filterMap fun pr =>
    match pr.2 with
    | SubResult.ok p b => some (p, b)
    | _ => none

/-- The JSON body returned on success (app.py lines 422-426), flattened to
its single plan: the furniture list, `total_items` and `total_plans`
(random ids elided). -/
structure Manifest where
  furniture : List FurniturePayload
  total_items : Nat
  total_plans : Nat
deriving DecidableEq

/-- The four distinct responses of the `/roomscan` route
(app.py lines 362-426). -/
inductive RoomscanResponse
  | errNoFile
  | errInvalidScan
  | errCouldNotGenerate
  | ok (manifest : Manifest)
deriving DecidableEq

/-- app.py lines 361-426, `roomscan_to_furniture`: reject a missing file
(line 364), reject an unreadable scan (line 368), run the per-suggestion
loop, answer `{"error": "Could not generate furniture"}, 500` when nothing
was built (line 392), otherwise assemble the manifest with
`total_items = len(furniture_payloads)` (line 424). -/
def roomscan_to_furniture (hasFile : Bool) (stage : Option UsdStage)
    (suggestions : List Suggestion) (subs : List SubResult) : RoomscanResponse :=
  if hasFile = false then RoomscanResponse.errNoFile
  else
    match get_room_dimensions_from_buffer stage with
    | none => RoomscanResponse.errInvalidScan
    | some dims =>
      let built := builtOf suggestions subs
      if built.isEmpty then RoomscanResponse.errCouldNotGenerate
      else
        let payloads := assemble dims built.length 0 built
        RoomscanResponse.ok
          { furniture := payloads, total_items := payloads.length, total_plans := 1 }

/-- Whether a `/roomscan` response is a manifest (as opposed to one of the
error responses). -/
def isManifestResponse : RoomscanResponse → Bool
  | RoomscanResponse.ok _ => true
  | _ => false

/-- The furniture list of a manifest response (empty for error responses). -/
def manifestFurniture : RoomscanResponse → List FurniturePayload
  | RoomscanResponse.ok m => m.furniture
  | _ => []

/-- The x-scale of the first furniture entry of a response, when present. -/
def firstScaleX (r : RoomscanResponse) : Option ℚ :=
  (manifestFurniture r).head?.map fun fp => fp.scale.1

/-- Rendering of the SPEC's three-tier target-size rule (spec §4.4, §8), in
meters: the matched product's measured size when available, else the
suggestion's own target size, else the fixed default 0.8 m. -/
def specTargetSizeM (productMeasuredCm suggTargetCm : Option ℚ) : ℚ :=
  match productMeasuredCm with
  | some v => v / 100
  | none =>
    match suggTargetCm with
    | some v => v / 100
    | none => 8 / 10

/- ========== app.py : asset store ========== -/

/-- The global `model_store` dictionary (app.py line 50), as an association
list with dictionary semantics: `store_put` keeps keys unique, so removing
a key is `List.filter`. -/
abbrev ModelStore := List (String × (List Nat × String))

/-- A response of the `/roomscan/model/<model_id>` route
(app.py lines 428-432). -/
inductive ModelResponse
  | notFound
  | payload (data : List Nat) (mimetype : String)
deriving DecidableEq

/-- app.py line 397: `model_store[model_id] = (usdz_bytes, mimetype)` —
dictionary assignment, replacing any previous binding of the key. -/
def store_put (s : ModelStore) (id : String) (data : List Nat) (mtype : String) : ModelStore :=
  (id, (data, mtype)) :: s.filter fun kv => kv.1 ≠ id

/-- app.py lines 428-432, `get_model`: 404 when the id is absent, otherwise
`model_store.pop(model_id)` and the payload with its mimetype. -/
def get_model (s : ModelStore) (id : String) : ModelResponse × ModelStore :=
  match s.lookup id with
  | none => (ModelResponse.notFound, s)
  | some (d, mt) => (ModelResponse.payload d mt, s.filter fun kv => kv.1 ≠ id)

/- ========== app.py : mesh post-processing (lines 291-302) ========== -/

/-- A 3D vector, over the reals (trimesh's centroid involves a square
root, so rationals do not suffice here). -/
abbrev Vec3 := ℝ × ℝ × ℝ

/-- Componentwise translation of a vertex by `t`. -/
noncomputable def vAdd3 (t v : Vec3) : Vec3 := (v.1 + t.1, v.2.1 + t.2.1, v.2.2 + t.2.2)

/-- Componentwise difference `a - b`. -/
noncomputable def vSub3 (a b : Vec3) : Vec3 := (a.1 - b.1, a.2.1 - b.2.1, a.2.2 - b.2.2)

/-- The 3D cross product. -/
noncomputable def cross3 (a b : Vec3) : Vec3 :=
  (a.2.1 * b.2.2 - a.2.2 * b.2.1, a.2.2 * b.1 - a.1 * b.2.2, a.1 * b.2.1 - a.2.1 * b.1)

/-- Squared Euclidean norm of a vector. -/
noncomputable def normSq3 (a : Vec3) : ℝ := a.1 ^ 2 + a.2.1 ^ 2 + a.2.2 ^ 2

/-- The triangle mesh loaded by `trimesh.load(..., force='mesh')`
(app.py line 292): vertex positions and triangular faces given by vertex
indices. -/
structure Mesh where
  vertices : List Vec3
  faces : List (Nat × Nat × Nat)

/-- Vertex lookup by index (faces of a well-formed mesh index into
`vertices`; out-of-range defaults to the origin). -/
noncomputable def vtx (m : Mesh) (i : Nat) : Vec3 := m.vertices.getD i (0, 0, 0)

/-- All face indices in range. -/
def validMesh (m : Mesh) : Prop :=
  ∀ f ∈ m.faces, f.1 < m.vertices.length ∧ f.2.1 < m.vertices.length ∧ f.2.2 < m.vertices.length

/-- trimesh `area_faces`: half the norm of the cross product of two edge
vectors of the triangle. -/
noncomputable def faceArea (m : Mesh) (f : Nat × Nat × Nat) : ℝ :=
  Real.sqrt (normSq3 (cross3 (vSub3 (vtx m f.2.1) (vtx m f.1)) (vSub3 (vtx m f.2.2) (vtx m f.1)))) / 2

/-- trimesh `triangles_center`: the mean of a triangle's three vertices. -/
noncomputable def faceCenter (m : Mesh) (f : Nat × Nat × Nat) : Vec3 :=
  (((vtx m f.1).1 + (vtx m f.2.1).1 + (vtx m f.2.2).1) / 3,
   ((vtx m f.1).2.1 + (vtx m f.2.1).2.1 + (vtx m f.2.2).2.1) / 3,
   ((vtx m f.1).2.2 + (vtx m f.2.1).2.2 + (vtx m f.2.2).2.2) / 3)

/-- Total surface area of the mesh. -/
noncomputable def totalArea (m : Mesh) : ℝ := (m.faces.map (faceArea m)).sum

/-- Area-weighted sum of a function of the triangle centers. -/
noncomputable def areaWeightedSum (m : Mesh) (g : Vec3 → ℝ) : ℝ :=
  (m.faces.map fun f => faceArea m f * g (faceCenter m f)).sum

/-- trimesh `Trimesh.centroid`: the average of the triangle centroids
weighted by the area of each triangle (used at app.py line 296). -/
noncomputable def centroid (m : Mesh) : Vec3 :=
  (areaWeightedSum m (fun v => v.1) / totalArea m,
   areaWeightedSum m (fun v => v.2.1) / totalArea m,
   areaWeightedSum m (fun v => v.2.2) / totalArea m)

/-- trimesh `apply_translation`: translate every vertex; faces unchanged. -/
noncomputable def apply_translation (m : Mesh) (t : Vec3) : Mesh :=
  { vertices := m.vertices.map (vAdd3 t), faces := m.faces }

/-- Minimum of a list of reals (empty list defaults to 0; the code only
takes bounds of nonempty vertex lists). -/
noncomputable def minList : List ℝ → ℝ
  | [] => 0
  | [x] => x
  | x :: y :: t => min x (minList (y :: t))

/-- trimesh `bounds[0][1]`: the minimum vertex y-coordinate (y is the
up-axis of the generated mesh, cf. app.py lines 212, 297-298). -/
noncomputable def boundsMinY (m : Mesh) : ℝ :=
  minList (m.vertices.map fun v => v.2.1)

/-- app.py lines 294-298, the mesh post-processing:
`tm.apply_translation([-tm.centroid[0], 0, -tm.centroid[2]])` then
`tm.apply_translation([0, -tm.bounds[0][1], 0])`.  The comment at line 294
reads "Simple Post-Processing (No Auto-Leveling)": no rotation is ever
applied. -/
noncomputable def postProcess (m : Mesh) : Mesh :=
  let m1 := apply_translation m (-(centroid m).1, 0, -(centroid m).2.2)
  apply_translation m1 (0, -boundsMinY m1, 0)

/- ========== concrete instances used by witnesses and counterexamples ========== -/

/-- A concrete scanned stage: z-up, 1 meter per unit, bbox size (2, 3, 4). -/
def stageZUp : UsdStage := { upAxis := UpAxis.z, metersPerUnit := 1, bboxSize := (2, 3, 4) }

/-- A concrete scanned stage: y-up, scenario-A room 300 × 250 × 400 cm. -/
def stageA : UsdStage := { upAxis := UpAxis.y, metersPerUnit := 1, bboxSize := (3, 5 / 2, 4) }

/-- A concrete suggestion whose own target width is 120 cm. -/
def sugg120 : Suggestion :=
  { furniture_query := some "IKEA bookshelf", target_width_cm := some 120,
    target_depth_cm := some 40, target_height_cm := some 200 }

/-- The same suggestion with target width 50 cm instead. -/
def sugg50 : Suggestion :=
  { furniture_query := some "IKEA bookshelf", target_width_cm := some 50,
    target_depth_cm := some 40, target_height_cm := some 200 }

/-- A concrete successful per-suggestion outcome: the product fetched by
app.py's `fetch_product_details` (hence 80 cm dimensions) with mesh bounds
1 m on every axis. -/
def subOk : SubResult :=
  SubResult.ok (fetch_product_details_app "POANG" "https://ikea.example/p/1" "img1" 129) (1, 1, 1)

/-- Candidate A for the matcher: fully measured (54, 54, 54). -/
def prodA : ScrapedProduct :=
  { name := "A", image_url := "imgA", price := "$10", link := "urlA",
    scraped_height := some 54, scraped_width := some 54, scraped_depth := some 54 }

/-- Candidate B for the matcher: fully measured, width 50, height 50,
depth 55 — Euclidean-closer to the target (50, 50, 50) than A. -/
def prodB : ScrapedProduct :=
  { name := "B", image_url := "imgB", price := "$11", link := "urlB",
    scraped_height := some 50, scraped_width := some 50, scraped_depth := some 55 }

/-- Candidate C: fully measured (100, 100, 100), far outside the tolerance
window around (50, 50, 50). -/
def prodC : ScrapedProduct :=
  { name := "C", image_url := "imgC", price := "$12", link := "urlC",
    scraped_height := some 100, scraped_width := some 100, scraped_depth := some 100 }

/-- The tolerance window the UI builds for a (50, 50, 50) target with
`DIMENSION_TOLERANCE = 4` (furniture_finder.py lines 33, 235-239). -/
def range50 : DimensionRange :=
  { height_min := 46, height_max := 54, width_min := 46, width_max := 54,
    depth_min := 46, depth_max := 54 }

/-- A concrete single-triangle mesh used by the claim-5 witness. -/
noncomputable def meshC5 : Mesh :=
  { vertices := [(0, 0, 0), (1, 0, 0), (0, 0, 1)], faces := [(0, 1, 2)] }

/-- A concrete single-triangle mesh used by the claim-8 witness: a unit
right triangle lying in the plane y = 2. -/
noncomputable def meshC8 : Mesh :=
  { vertices := [(1, 2, 3), (2, 2, 3), (1, 2, 4)], faces := [(0, 1, 2)] }

/-- A concrete model store holding one entry. -/
def storeOne : ModelStore := [("m1", ([7, 7, 7], "model/vnd.usd+zip"))]

/-- Candidate Q: missing scraped height (the other two dimensions present). -/
def prodQ : ScrapedProduct :=
  { name := "Q", image_url := "imgQ", price := "?", link := "urlQ",
    scraped_height := none, scraped_width := some 50, scraped_depth := some 50 }

/- ========== helper lemmas ========== -/

theorem sort3_sorted (a b c : ℚ) :
    (sort3 a b c).1 ≤ (sort3 a b c).2.1 ∧ (sort3 a b c).2.1 ≤ (sort3 a b c).2.2 := by
  unfold sort3
  split_ifs <;> dsimp <;> exact ⟨by linarith, by linarith⟩

theorem sort3_perm (a b c : ℚ) :
    [(sort3 a b c).1, (sort3 a b c).2.1, (sort3 a b c).2.2].Perm [a, b, c] := by
  unfold sort3
  split_ifs <;> dsimp
  · exact List.Perm.refl _
  · exact List.Perm.cons a (List.Perm.swap b c [])
  · exact (List.Perm.swap a c [b]).trans (List.Perm.cons a (List.Perm.swap b c []))
  · exact List.Perm.swap a b [c]
  · exact (List.Perm.cons b (List.Perm.swap a c [])).trans (List.Perm.swap a b [c])
  · exact (List.Perm.swap b c [a]).trans
      ((List.Perm.cons b (List.Perm.swap a c [])).trans (List.Perm.swap a b [c]))

theorem filter_products_eq (ps : List ScrapedProduct) (c : DimensionRange) :
    filter_products ps c =
      ((ps.filter fun p => fitsConstraints c p).map
         fun p => { p with fit_reasons := ["✓ Verified Dimensions"] },
       (ps.filter fun p => !fitsConstraints c p).map
         fun p => { p with fit_reasons := ["? Check website for dimensions"] }) := by
  induction ps with
  | nil => rfl
  | cons p rest ih =>
    by_cases h : fitsConstraints c p
    · simp [filter_products, List.filter_cons, h, ih]
    · simp [filter_products, List.filter_cons, h, ih]

theorem fp_length (ps : List ScrapedProduct) (c : DimensionRange) :
    (filter_products ps c).1.length + (filter_products ps c).2.length = ps.length := by
  induction ps with
  | nil => rfl
  | cons p rest ih =>
    by_cases h : fitsConstraints c p
    · simp only [filter_products, h, if_true, List.length_cons]
      omega
    · simp only [filter_products, h, if_false, Bool.false_eq_true, List.length_cons]
      omega

theorem fp_perfect_nil_iff (ps : List ScrapedProduct) (c : DimensionRange) :
    (filter_products ps c).1 = [] ↔ ∀ p ∈ ps, fitsConstraints c p = false := by
  induction ps with
  | nil => simp [filter_products]
  | cons p rest ih =>
    by_cases h : fitsConstraints c p
    · simp [filter_products, h]
    · simp [filter_products, h, ih]


/- ========== claim theorems ========== -/

/-- Claim C10: whenever the page-text dimension parser finds a numeric
triplet, the three values are assigned in ascending order as depth, height,
width respectively, so a `ScrapedProduct` built from such a page has
`scraped_depth ≤ scraped_height ≤ scraped_width` (and the assigned values
are a permutation of the triplet), regardless of the order the values
appeared in the page text. -/
theorem c10_parser_sorted_dims (title url image price : String) (a b c : ℚ)
    (rest : List (ℚ × ℚ × ℚ)) :
    (fetch_product_details_ff title url image price ((a, b, c) :: rest)).scraped_depth
        = some (sort3 a b c).1 ∧
    (fetch_product_details_ff title url image price ((a, b, c) :: rest)).scraped_height
        = some (sort3 a b c).2.1 ∧
    (fetch_product_details_ff title url image price ((a, b, c) :: rest)).scraped_width
        = some (sort3 a b c).2.2 ∧
    (sort3 a b c).1 ≤ (sort3 a b c).2.1 ∧ (sort3 a b c).2.1 ≤ (sort3 a b c).2.2 ∧
    [(sort3 a b c).1, (sort3 a b c).2.1, (sort3 a b c).2.2].Perm [a, b, c] :=
  ⟨rfl, rfl, rfl, (sort3_sorted a b c).1, (sort3_sorted a b c).2, sort3_perm a b c⟩

/-- Claim C2 (counterexample): no Euclidean argmin selection exists in the
code.  At target (50, 50, 50) the tolerance-window matcher marks candidate
A = (54, 54, 54) as the sole verified ("perfect") match and relegates the
strictly Euclidean-closer candidate B = (w 50, d 55, h 50) to the
unverified list, so the selected match does not minimise the Euclidean
norm of the per-axis differences. -/
theorem c2_counterexample :
    specDistSq (50, 50, 50) (50, 55, 50) < specDistSq (50, 50, 50) (54, 54, 54) ∧
    (filter_products [prodA, prodB] range50).1
        = [{ prodA with fit_reasons := ["✓ Verified Dimensions"] }] ∧
    (filter_products [prodA, prodB] range50).2
        = [{ prodB with fit_reasons := ["? Check website for dimensions"] }] := by
  have hA : fitsConstraints range50 prodA = true := by
    norm_num [fitsConstraints, h_fit, w_fit, d_fit, orNeg1, prodA, range50]
  have hB : fitsConstraints range50 prodB = false := by
    norm_num [fitsConstraints, h_fit, w_fit, d_fit, orNeg1, prodB, range50]
  refine ⟨by norm_num [specDistSq], ?_, ?_⟩ <;> simp [filter_products, hA, hB]

/-- Claim C2 (amended): `filter_products` computes no distance score; it
partitions the candidates, in input order, into those passing all three
per-axis tolerance-range checks and the rest; a candidate with a missing
(or zero) dimension compares as -1 and therefore never passes a range
whose lower bound exceeds -1 (as every UI-built range does). -/
theorem c2_range_partition (ps : List ScrapedProduct) (c : DimensionRange)
    (q : ScrapedProduct) (hq : q.scraped_height = none) (hc : -1 < c.height_min) :
    filter_products ps c =
      ((ps.filter fun p => fitsConstraints c p).map
         fun p => { p with fit_reasons := ["✓ Verified Dimensions"] },
       (ps.filter fun p => !fitsConstraints c p).map
         fun p => { p with fit_reasons := ["? Check website for dimensions"] }) ∧
    fitsConstraints c q = false := by
  refine ⟨filter_products_eq ps c, ?_⟩
  have h1 : ¬ (c.height_min ≤ -1) := not_le.2 hc
  simp [fitsConstraints, h_fit, orNeg1, hq, h1]

/-- Witness for C2's amended theorem at a concrete pool and range. -/
theorem c2_range_partition_witness :
    (prodQ.scraped_height = none ∧ -1 < range50.height_min) ∧
    (filter_products [prodA] range50 =
      (([prodA].filter fun p => fitsConstraints range50 p).map
         fun p => { p with fit_reasons := ["✓ Verified Dimensions"] },
       ([prodA].filter fun p => !fitsConstraints range50 p).map
         fun p => { p with fit_reasons := ["? Check website for dimensions"] }) ∧
     fitsConstraints range50 prodQ = false) :=
  ⟨⟨rfl, by decide⟩, c2_range_partition [prodA] range50 prodQ rfl (by decide)⟩

/-- Claim C6 (counterexample): the matcher's "no match" outcome (empty
verified list) occurs for a pool whose sole candidate has every measured
dimension present — it is merely out of the tolerance window — and the
candidate is not dropped but classified "possible"; so "NotFound iff every
candidate has a missing measured dimension" fails. -/
theorem c6_counterexample :
    (filter_products [prodC] range50).1 = [] ∧
    prodC.scraped_height.isSome = true ∧
    prodC.scraped_width.isSome = true ∧
    prodC.scraped_depth.isSome = true ∧
    (filter_products [prodC] range50).2.length = 1 := by
  decide

/-- Claim C6 (amended): the matcher never returns a NotFound outcome —
every candidate is returned, classified either "perfect" or "possible" —
and the verified list is empty exactly when no candidate passes the
tolerance-range checks, which is not equivalent to every candidate having a
missing measured dimension. -/
theorem c6_no_notfound (ps : List ScrapedProduct) (c : DimensionRange) :
    (filter_products ps c).1.length + (filter_products ps c).2.length = ps.length ∧
    ((filter_products ps c).1 = [] ↔ ∀ p ∈ ps, fitsConstraints c p = false) :=
  ⟨fp_length ps c, fp_perfect_nil_iff ps c⟩

/-- Witness for C6's amended theorem at a concrete pool. -/
theorem c6_no_notfound_witness :
    (filter_products [prodA, prodQ] range50).1.length
        + (filter_products [prodA, prodQ] range50).2.length = 2 ∧
    ((filter_products [prodA, prodQ] range50).1 = [] ↔
      ∀ p ∈ [prodA, prodQ], fitsConstraints range50 p = false) :=
  c6_no_notfound [prodA, prodQ] range50

/-- Claim C4 (counterexample): a raw mesh extent of 0.005 m lies below the
0.01 epsilon floor, yet the computed scale for an 80 cm target is
`0.8 / 0.01 = 80` — neither the claimed default of 1.0 nor
targetSize divided by the raw measured bound (which would be 160). -/
theorem c4_counterexample :
    (1 / 200 : ℚ) < 1 / 100 ∧
    (clampBounds (0, 0, 0) (1 / 200, 1 / 200, 1 / 200)).1 = 1 / 100 ∧
    scaleAxis 80 (clampBounds (0, 0, 0) (1 / 200, 1 / 200, 1 / 200)).1 = 80 ∧
    (80 : ℚ) ≠ 1 ∧
    (80 : ℚ) ≠ (80 / 100) / (1 / 200) := by
  have h1 : (clampBounds (0, 0, 0) (1 / 200, 1 / 200, 1 / 200)).1 = 1 / 100 := by
    show max ((1 : ℚ) / 200 - 0) (1 / 100) = 1 / 100
    rw [sub_zero]
    exact max_eq_right (by norm_num)
  refine ⟨by norm_num, h1, ?_, by norm_num, by norm_num⟩
  rw [h1]
  unfold scaleAxis
  rw [if_pos (by norm_num : (0 : ℚ) < 1 / 100)]
  norm_num

/-- Claim C4 (amended): each axis bound handed to the scale computation is
clamped to at least the 0.01 floor, so the scale always equals the target
(in meters) divided by `max(rawExtent, 0.01)` — the division is never by
zero and can never overflow to infinity; a raw extent below the floor
yields `target / 0.01`, not a default of 1.0 (the 1.0 branch only guards
non-positive bounds, which the clamp makes unreachable). -/
theorem c4_clamped_scale (t : ℚ) (bmin bmax : ℚ × ℚ × ℚ) :
    (1 / 100 ≤ (clampBounds bmin bmax).1 ∧
     1 / 100 ≤ (clampBounds bmin bmax).2.1 ∧
     1 / 100 ≤ (clampBounds bmin bmax).2.2) ∧
    scaleAxis t (clampBounds bmin bmax).1 = (t / 100) / max (bmax.1 - bmin.1) (1 / 100) ∧
    scaleAxis t (clampBounds bmin bmax).2.1 = (t / 100) / max (bmax.2.1 - bmin.2.1) (1 / 100) ∧
    scaleAxis t (clampBounds bmin bmax).2.2 = (t / 100) / max (bmax.2.2 - bmin.2.2) (1 / 100) := by
  have hpos : ∀ x : ℚ, (0 : ℚ) < max x (1 / 100) :=
    fun x => lt_of_lt_of_le (by norm_num) (le_max_right x (1 / 100))
  refine ⟨⟨le_max_right _ _, le_max_right _ _, le_max_right _ _⟩, ?_, ?_, ?_⟩ <;>
    simp only [clampBounds, scaleAxis] <;> rw [if_pos (hpos _)]

/-- Claim C9 (counterexample): for a z-up container of bbox size (2, 3, 4)
at 1 meter per unit, the extractor still reports `h = 300` (the second
coordinate) although the declared up-axis makes the vertical extent 400;
and the returned dictionary carries only `w`, `h`, `d` — no floor
coordinate. -/
theorem c9_counterexample :
    get_room_dimensions_from_buffer (some stageZUp) = some { w := 200, h := 300, d := 400 } ∧
    specVerticalExtentCm stageZUp = 400 ∧
    (300 : ℚ) ≠ 400 := by
  refine ⟨?_, by norm_num [specVerticalExtentCm, stageZUp], by norm_num⟩
  norm_num [get_room_dimensions_from_buffer, stageZUp]

/-- Claim C9 (amended): the extractor ignores the container's declared
up-axis entirely — two stages differing only in up-axis yield identical
room metrics — and always labels bbox components 0/1/2 as w/h/d; no floor
coordinate is reported (the result carries only those three fields). -/
theorem c9_up_axis_ignored (ax1 ax2 : UpAxis) (mpu : ℚ) (sz : ℚ × ℚ × ℚ) :
    get_room_dimensions_from_buffer (some { upAxis := ax1, metersPerUnit := mpu, bboxSize := sz })
      = get_room_dimensions_from_buffer
          (some { upAxis := ax2, metersPerUnit := mpu, bboxSize := sz }) ∧
    get_room_dimensions_from_buffer (some { upAxis := ax1, metersPerUnit := mpu, bboxSize := sz })
      = some { w := sz.1 * mpu * 100, h := sz.2.1 * mpu * 100, d := sz.2.2 * mpu * 100 } :=
  ⟨rfl, rfl⟩

theorem assemble_length (dims : RoomDims) (n idx : Nat)
    (l : List (AppProduct × (ℚ × ℚ × ℚ))) :
    (assemble dims n idx l).length = l.length := by
  induction l generalizing idx with
  | nil => rfl
  | cons hd tl ih =>
    obtain ⟨p, b⟩ := hd
    simp [assemble, ih]

theorem mem_assemble (dims : RoomDims) (n idx : Nat)
    (l : List (AppProduct × (ℚ × ℚ × ℚ))) (fp : FurniturePayload)
    (h : fp ∈ assemble dims n idx l) :
    ∃ p b i, (p, b) ∈ l ∧ fp = mkPayload dims n i p b := by
  induction l generalizing idx with
  | nil => simp [assemble] at h
  | cons hd tl ih =>
    obtain ⟨p, b⟩ := hd
    simp only [assemble, List.mem_cons] at h
    rcases h with h | h
    · exact ⟨p, b, idx, by simp, h⟩
    · obtain ⟨p2, b2, i, hmem, heq⟩ := ih _ h
      exact ⟨p2, b2, i, by simp [hmem], heq⟩

theorem mem_builtOf (suggs : List Suggestion) (subs : List SubResult)
    (p : AppProduct) (b : ℚ × ℚ × ℚ) (h : (p, b) ∈ builtOf suggs subs) :
    SubResult.ok p b ∈ subs := by
  simp only [builtOf, List.mem_filterMap] at h
  obtain ⟨⟨sg, r⟩, hmem, heq⟩ := h
  have hr : r ∈ subs := (List.of_mem_zip hmem).2
  cases r with
  | ok p2 b2 =>
    simp only [Option.some.injEq, Prod.mk.injEq] at heq
    obtain ⟨h1, h2⟩ := heq
    rw [h1, h2] at hr
    exact hr
  | noLinks => simp at heq
  | noProductOrImage => simp at heq
  | imageDownloadError => simp at heq
  | pipelineError => simp at heq

/-- Claim C1 (counterexample): extraction succeeds (the stage opens) but
the single per-suggestion sub-pipeline fails, so zero items are built —
and the route answers the error response
`{"error": "Could not generate furniture"}, 500`, not a manifest with
`total_items = 0`. -/
theorem c1_counterexample :
    roomscan_to_furniture true (some stageA) [sugg120] [SubResult.pipelineError]
        = RoomscanResponse.errCouldNotGenerate ∧
    isManifestResponse
        (roomscan_to_furniture true (some stageA) [sugg120] [SubResult.pipelineError]) = false :=
  ⟨rfl, rfl⟩

/-- Claim C1 (amended): when dimension extraction succeeds, the submit-scan
route returns the "Could not generate furniture" error response whenever
zero items were built, and a manifest with `total_items` equal to the
number of successfully built items otherwise. -/
theorem c1_zero_built_error (stage : UsdStage) (suggs : List Suggestion)
    (subs : List SubResult) :
    (builtOf suggs subs = [] →
      roomscan_to_furniture true (some stage) suggs subs
        = RoomscanResponse.errCouldNotGenerate) ∧
    (builtOf suggs subs ≠ [] →
      ∃ m, roomscan_to_furniture true (some stage) suggs subs = RoomscanResponse.ok m ∧
        m.total_items = (builtOf suggs subs).length) := by
  constructor
  · intro h
    simp [roomscan_to_furniture, get_room_dimensions_from_buffer, h]
  · intro h
    simp only [roomscan_to_furniture, Bool.true_eq_false, if_false,
      get_room_dimensions_from_buffer]
    rw [if_neg (by simpa [List.isEmpty_iff] using h)]
    exact ⟨_, rfl, assemble_length _ _ _ _⟩

/-- Witness for C1's amended theorem: one suggestion succeeds, so the route
answers a manifest with `total_items = 1`. -/
theorem c1_witness :
    builtOf [sugg120] [subOk] ≠ [] ∧
    (∃ m, roomscan_to_furniture true (some stageA) [sugg120] [subOk] = RoomscanResponse.ok m ∧
      m.total_items = (builtOf [sugg120] [subOk]).length) :=
  ⟨by simp [builtOf, subOk], (c1_zero_built_error stageA [sugg120] [subOk]).2 (by simp [builtOf, subOk])⟩

theorem lookup_filter_ne (s : ModelStore) (id : String) :
    ((s.filter fun kv => kv.1 ≠ id).lookup id) = none := by
  rw [List.lookup_eq_none_iff]
  intro p hp
  have h1 : p.1 ≠ id := by simpa using List.of_mem_filter hp
  simpa [bne_iff_ne] using Ne.symm h1

/-- Claim C3: fetching a stored model identifier returns the stored bytes
with their content type and removes the entry, so a second fetch of the
same identifier answers not-found. -/
theorem c3_take_once (s : ModelStore) (id : String) (d : List Nat) (mt : String)
    (h : s.lookup id = some (d, mt)) :
    (get_model s id).1 = ModelResponse.payload d mt ∧
    (get_model (get_model s id).2 id).1 = ModelResponse.notFound := by
  constructor
  · simp [get_model, h]
  · have hsnd : (get_model s id).2 = s.filter fun kv => kv.1 ≠ id := by
      simp [get_model, h]
    rw [hsnd]
    unfold get_model
    rw [lookup_filter_ne]

/-- Witness for C3 at a concrete one-entry store. -/
theorem c3_take_once_witness :
    storeOne.lookup "m1" = some ([7, 7, 7], "model/vnd.usd+zip") ∧
    ((get_model storeOne "m1").1 = ModelResponse.payload [7, 7, 7] "model/vnd.usd+zip" ∧
     (get_model (get_model storeOne "m1").2 "m1").1 = ModelResponse.notFound) :=
  ⟨rfl, c3_take_once storeOne "m1" [7, 7, 7] "model/vnd.usd+zip" rfl⟩

/-- Claim C7 (counterexample): the target size used for scaling is the
constant 80 cm that app.py's `fetch_product_details` hardcodes — with mesh
bounds of 1 m the emitted x-scale is 0.8 — whereas the spec's three-tier
rule (no measured size is ever extracted from the page, so tier two: the
suggestion's own 120 cm target) demands 1.2; moreover replacing the
suggestion's target by 50 cm changes nothing in the response. -/
theorem c7_counterexample :
    firstScaleX (roomscan_to_furniture true (some stageA) [sugg120] [subOk]) = some (4 / 5) ∧
    specTargetSizeM none sugg120.target_width_cm = 6 / 5 ∧
    (4 / 5 : ℚ) ≠ 6 / 5 ∧
    roomscan_to_furniture true (some stageA) [sugg120] [subOk]
      = roomscan_to_furniture true (some stageA) [sugg50] [subOk] := by
  have h1 : firstScaleX (roomscan_to_furniture true (some stageA) [sugg120] [subOk])
      = some (scaleAxis 80 1) := rfl
  have h2 : scaleAxis 80 1 = 4 / 5 := by
    unfold scaleAxis
    rw [if_pos (by norm_num : (0 : ℚ) < 1)]
    norm_num
  refine ⟨by rw [h1, h2], ?_, by norm_num, rfl⟩
  norm_num [specTargetSizeM, sugg120]

/-- Claim C7 (amended): the per-item scale target always comes from the
matched product's `width_cm`/`height_cm`/`depth_cm` fields, which app.py's
`fetch_product_details` sets to the constant 80 cm regardless of page
content; the suggestion's own target size is never consulted, and a
suggestion with no matched product is dropped rather than defaulted, so
every entry that does appear in the manifest is scaled from the 80 cm
(0.8 m) constant. -/
theorem c7_constant_target (title url img : String) (pr : ℚ) (stage : UsdStage)
    (suggs : List Suggestion) (subs : List SubResult)
    (hsubs : ∀ r ∈ subs, ∀ p b, r = SubResult.ok p b →
      p.width_cm = 80 ∧ p.height_cm = 80 ∧ p.depth_cm = 80) :
    ((fetch_product_details_app title url img pr).width_cm = 80 ∧
     (fetch_product_details_app title url img pr).height_cm = 80 ∧
     (fetch_product_details_app title url img pr).depth_cm = 80) ∧
    ∀ fp ∈ manifestFurniture (roomscan_to_furniture true (some stage) suggs subs),
      ∃ b : ℚ × ℚ × ℚ, fp.scale = (scaleAxis 80 b.1, scaleAxis 80 b.2.1, scaleAxis 80 b.2.2) := by
  refine ⟨⟨rfl, rfl, rfl⟩, ?_⟩
  intro fp hfp
  by_cases hb : builtOf suggs subs = []
  · simp [roomscan_to_furniture, get_room_dimensions_from_buffer, hb, manifestFurniture] at hfp
  · simp only [roomscan_to_furniture, Bool.true_eq_false, if_false,
      get_room_dimensions_from_buffer] at hfp
    rw [if_neg (by simpa [List.isEmpty_iff] using hb)] at hfp
    simp only [manifestFurniture] at hfp
    obtain ⟨p, b2, i, hmem, rfl⟩ := mem_assemble _ _ _ _ _ hfp
    obtain ⟨hw, hh, hd⟩ := hsubs _ (mem_builtOf _ _ _ _ hmem) p b2 rfl
    exact ⟨b2, by simp [mkPayload, hw, hh, hd]⟩

/-- Witness for C7's amended theorem with one concrete successful item. -/
theorem c7_constant_target_witness :
    (∀ r ∈ [subOk], ∀ p b, r = SubResult.ok p b →
      p.width_cm = 80 ∧ p.height_cm = 80 ∧ p.depth_cm = 80) ∧
    (((fetch_product_details_app "POANG" "u" "i" 129).width_cm = 80 ∧
      (fetch_product_details_app "POANG" "u" "i" 129).height_cm = 80 ∧
      (fetch_product_details_app "POANG" "u" "i" 129).depth_cm = 80) ∧
     ∀ fp ∈ manifestFurniture (roomscan_to_furniture true (some stageA) [sugg120] [subOk]),
       ∃ b : ℚ × ℚ × ℚ, fp.scale = (scaleAxis 80 b.1, scaleAxis 80 b.2.1, scaleAxis 80 b.2.2)) := by
  have hs : ∀ r ∈ [subOk], ∀ p b, r = SubResult.ok p b →
      p.width_cm = 80 ∧ p.height_cm = 80 ∧ p.depth_cm = 80 := by
    intro r hr p b heq
    rw [List.mem_singleton] at hr
    subst hr
    rw [subOk] at heq
    injection heq with h1 h2
    rw [← h1]
    exact ⟨rfl, rfl, rfl⟩
  exact ⟨hs, c7_constant_target "POANG" "u" "i" 129 stageA [sugg120] [subOk] hs⟩

theorem faces_apply_translation (m : Mesh) (t : Vec3) :
    (apply_translation m t).faces = m.faces := rfl

theorem length_apply_translation (m : Mesh) (t : Vec3) :
    (apply_translation m t).vertices.length = m.vertices.length := by
  simp [apply_translation]

theorem vtx_apply_translation (m : Mesh) (t : Vec3) (i : Nat)
    (h : i < m.vertices.length) :
    vtx (apply_translation m t) i = vAdd3 t (vtx m i) := by
  unfold vtx apply_translation
  rw [List.getD_eq_getElem?_getD, List.getD_eq_getElem?_getD, List.getElem?_map,
    List.getElem?_eq_getElem h]
  rfl

theorem vSub3_vAdd3 (t a b : Vec3) : vSub3 (vAdd3 t a) (vAdd3 t b) = vSub3 a b := by
  simp only [vSub3, vAdd3, Prod.mk.injEq]
  exact ⟨by ring, by ring, by ring⟩

theorem validMesh_apply_translation (m : Mesh) (t : Vec3) (hv : validMesh m) :
    validMesh (apply_translation m t) := by
  intro f hf
  simpa [apply_translation] using hv f hf

theorem faceArea_apply_translation (m : Mesh) (t : Vec3) (f : Nat × Nat × Nat)
    (h1 : f.1 < m.vertices.length) (h2 : f.2.1 < m.vertices.length)
    (h3 : f.2.2 < m.vertices.length) :
    faceArea (apply_translation m t) f = faceArea m f := by
  unfold faceArea
  rw [vtx_apply_translation m t f.1 h1, vtx_apply_translation m t f.2.1 h2,
    vtx_apply_translation m t f.2.2 h3, vSub3_vAdd3, vSub3_vAdd3]

theorem faceCenter_apply_translation (m : Mesh) (t : Vec3) (f : Nat × Nat × Nat)
    (h1 : f.1 < m.vertices.length) (h2 : f.2.1 < m.vertices.length)
    (h3 : f.2.2 < m.vertices.length) :
    faceCenter (apply_translation m t) f = vAdd3 t (faceCenter m f) := by
  unfold faceCenter
  rw [vtx_apply_translation m t f.1 h1, vtx_apply_translation m t f.2.1 h2,
    vtx_apply_translation m t f.2.2 h3]
  simp only [vAdd3, Prod.mk.injEq]
  exact ⟨by ring, by ring, by ring⟩

theorem totalArea_apply_translation (m : Mesh) (t : Vec3) (hv : validMesh m) :
    totalArea (apply_translation m t) = totalArea m := by
  unfold totalArea
  rw [faces_apply_translation]
  congr 1
  apply List.map_congr_left
  intro f hf
  obtain ⟨h1, h2, h3⟩ := hv f hf
  exact faceArea_apply_translation m t f h1 h2 h3

theorem sum_map_mul_add {α : Type} (l : List α) (f g : α → ℝ) (c : ℝ) :
    (l.map fun x => f x * (g x + c)).sum
      = (l.map fun x => f x * g x).sum + c * (l.map f).sum := by
  induction l with
  | nil => simp
  | cons a tl ih =>
    simp only [List.map_cons, List.sum_cons, ih]
    ring

theorem areaWeightedSum_apply_translation (m : Mesh) (t : Vec3) (hv : validMesh m)
    (g : Vec3 → ℝ) (c : ℝ) (hg : ∀ v, g (vAdd3 t v) = g v + c) :
    areaWeightedSum (apply_translation m t) g = areaWeightedSum m g + c * totalArea m := by
  unfold areaWeightedSum totalArea
  rw [faces_apply_translation]
  rw [List.map_congr_left (fun f hf => ?_), sum_map_mul_add m.faces (faceArea m) (fun f => g (faceCenter m f)) c]
  obtain ⟨h1, h2, h3⟩ := hv f hf
  rw [faceArea_apply_translation m t f h1 h2 h3, faceCenter_apply_translation m t f h1 h2 h3, hg]

theorem centroid_fst_apply_translation (m : Mesh) (t : Vec3) (hv : validMesh m)
    (hA : totalArea m ≠ 0) :
    (centroid (apply_translation m t)).1 = (centroid m).1 + t.1 := by
  unfold centroid
  rw [totalArea_apply_translation m t hv,
    areaWeightedSum_apply_translation m t hv (fun v => v.1) t.1 (fun v => by simp [vAdd3])]
  field_simp

theorem centroid_thd_apply_translation (m : Mesh) (t : Vec3) (hv : validMesh m)
    (hA : totalArea m ≠ 0) :
    (centroid (apply_translation m t)).2.2 = (centroid m).2.2 + t.2.2 := by
  unfold centroid
  rw [totalArea_apply_translation m t hv,
    areaWeightedSum_apply_translation m t hv (fun v => v.2.2) t.2.2 (fun v => by simp [vAdd3])]
  field_simp

theorem minList_map_add (l : List ℝ) (c : ℝ) (h : l ≠ []) :
    minList (l.map fun x => x + c) = minList l + c := by
  induction l with
  | nil => exact absurd rfl h
  | cons a tl ih =>
    cases tl with
    | nil => simp [minList]
    | cons b tl2 =>
      simp only [List.map_cons, minList] at ih ⊢
      rw [ih (by simp), min_add_add_right]

theorem boundsMinY_apply_translation (m : Mesh) (t : Vec3) (h : m.vertices ≠ []) :
    boundsMinY (apply_translation m t) = boundsMinY m + t.2.1 := by
  unfold boundsMinY apply_translation
  rw [List.map_map]
  have h1 : ((fun v : Vec3 => v.2.1) ∘ vAdd3 t) = fun v : Vec3 => v.2.1 + t.2.1 := by
    funext v
    simp [vAdd3]
  rw [h1, show (m.vertices.map fun v : Vec3 => v.2.1 + t.2.1)
      = (m.vertices.map fun v : Vec3 => v.2.1).map (fun x => x + t.2.1) by
    rw [List.map_map]; rfl]
  exact minList_map_add _ _ (by simpa using h)

/-- Claim C5: the mesh post-processing applies no rotation whatsoever (the
code's comment reads "Simple Post-Processing (No Auto-Leveling)"), so for
every mesh — in particular every mesh whose computed tilt would exceed the
high safety bound — the output orientation equals the input orientation:
all pairwise vertex difference vectors are preserved, the whole correction
being a pure translation. -/
theorem c5_no_rotation (m : Mesh) (i j : Nat) (hi : i < m.vertices.length)
    (hj : j < m.vertices.length) :
    vSub3 (vtx (postProcess m) i) (vtx (postProcess m) j)
      = vSub3 (vtx m i) (vtx m j) := by
  have hpost : postProcess m
      = apply_translation (apply_translation m (-(centroid m).1, 0, -(centroid m).2.2))
          (0, -boundsMinY (apply_translation m (-(centroid m).1, 0, -(centroid m).2.2)), 0) := rfl
  have hi1 : i < (apply_translation m (-(centroid m).1, 0, -(centroid m).2.2)).vertices.length := by
    rw [length_apply_translation]
    exact hi
  have hj1 : j < (apply_translation m (-(centroid m).1, 0, -(centroid m).2.2)).vertices.length := by
    rw [length_apply_translation]
    exact hj
  rw [hpost, vtx_apply_translation _ _ _ hi1, vtx_apply_translation _ _ _ hj1, vSub3_vAdd3,
    vtx_apply_translation _ _ _ hi, vtx_apply_translation _ _ _ hj, vSub3_vAdd3]

/-- Witness for C5 on a concrete triangle mesh. -/
theorem c5_no_rotation_witness :
    0 < meshC5.vertices.length ∧ 1 < meshC5.vertices.length ∧
    vSub3 (vtx (postProcess meshC5) 0) (vtx (postProcess meshC5) 1)
      = vSub3 (vtx meshC5 0) (vtx meshC5 1) :=
  ⟨by simp [meshC5], by simp [meshC5],
    c5_no_rotation meshC5 0 1 (by simp [meshC5]) (by simp [meshC5])⟩

/-- Claim C8: after the post-processing the minimum up-coordinate of the
mesh is exactly 0 and the horizontal (x, z) centroid is exactly (0, 0) —
exact over the reals, which is the "within floating tolerance" statement
of the float code. -/
theorem c8_grounded_centered (m : Mesh) (hne : m.vertices ≠ []) (hv : validMesh m)
    (hA : totalArea m ≠ 0) :
    boundsMinY (postProcess m) = 0 ∧
    (centroid (postProcess m)).1 = 0 ∧ (centroid (postProcess m)).2.2 = 0 := by
  have hpost : postProcess m
      = apply_translation (apply_translation m (-(centroid m).1, 0, -(centroid m).2.2))
          (0, -boundsMinY (apply_translation m (-(centroid m).1, 0, -(centroid m).2.2)), 0) := rfl
  set t1 : Vec3 := (-(centroid m).1, 0, -(centroid m).2.2) with ht1
  set m1 : Mesh := apply_translation m t1 with hm1
  have hv1 : validMesh m1 := by
    rw [hm1]
    exact validMesh_apply_translation m t1 hv
  have hne1 : m1.vertices ≠ [] := by
    rw [hm1]
    simpa [apply_translation] using hne
  have hA1 : totalArea m1 ≠ 0 := by
    rw [hm1, totalArea_apply_translation m t1 hv]
    exact hA
  refine ⟨?_, ?_, ?_⟩
  · rw [hpost, boundsMinY_apply_translation m1 (0, -boundsMinY m1, 0) hne1]
    simp
  · rw [hpost, centroid_fst_apply_translation m1 (0, -boundsMinY m1, 0) hv1 hA1, hm1,
      centroid_fst_apply_translation m t1 hv hA, ht1]
    simp
  · rw [hpost, centroid_thd_apply_translation m1 (0, -boundsMinY m1, 0) hv1 hA1, hm1,
      centroid_thd_apply_translation m t1 hv hA, ht1]
    simp

/-- Witness for C8 on a concrete triangle mesh of area 1/2 lying in the
plane y = 2. -/
theorem c8_grounded_centered_witness :
    (meshC8.vertices ≠ [] ∧ validMesh meshC8 ∧ totalArea meshC8 ≠ 0) ∧
    (boundsMinY (postProcess meshC8) = 0 ∧
     (centroid (postProcess meshC8)).1 = 0 ∧ (centroid (postProcess meshC8)).2.2 = 0) := by
  have hne : meshC8.vertices ≠ [] := by simp [meshC8]
  have hv : validMesh meshC8 := by
    intro f hf
    have hfe : f = (0, 1, 2) := by simpa [meshC8] using hf
    subst hfe
    refine ⟨?_, ?_, ?_⟩ <;> simp [meshC8]
  have v0 : vtx meshC8 0 = ((1 : ℝ), (2 : ℝ), (3 : ℝ)) := rfl
  have v1 : vtx meshC8 1 = ((2 : ℝ), (2 : ℝ), (3 : ℝ)) := rfl
  have v2 : vtx meshC8 2 = ((1 : ℝ), (2 : ℝ), (4 : ℝ)) := rfl
  have harea : totalArea meshC8 = Real.sqrt 1 / 2 := by
    have hf : meshC8.faces = [(0, 1, 2)] := rfl
    unfold totalArea
    rw [hf]
    simp only [List.map_cons, List.map_nil, List.sum_cons, List.sum_nil, add_zero]
    unfold faceArea
    norm_num [v0, v1, v2, vSub3, cross3, normSq3]
  have hA : totalArea meshC8 ≠ 0 := by
    rw [harea, Real.sqrt_one]
    norm_num
  exact ⟨⟨hne, hv, hA⟩, c8_grounded_centered meshC8 hne hv hA⟩
